import Mathlib

/-! Gemini relay (`server.js`) and chat client (`script.js`)

A shallow embedding of the two request paths of the repository:

* `handler` is the body of `app.post('/api/gemini', ...)` in `server.js`;
* `getGeminiResponse` is the function of that name in `script.js`.

JavaScript values that can reach these functions are JSON values (request bodies and
upstream payloads are produced by a JSON reader) together with `undefined`, which is what
reading a missing property yields.  A computation that may throw is a value of
`Except JSError α`; `try { .. } catch (err) { .. }` is a case split on that value.
The upstream service and the engine-specific parts of the JavaScript runtime are
parameters.  Logging calls (`console.log`, `console.error`) have no effect on the
response and are left out.  A number is the IEEE double the program holds, and `deliver`
gives what Express and Node put on the wire for the status and body the handler passes on.
-/

namespace Agent

/-! ## JSON values and the JavaScript operations the code applies to them -/

/-- A JavaScript number: an IEEE 754 double, given by its sign bit, its 11 exponent bits and
its 52 fraction bits. This is the value the program holds after `JSON.parse`, which rounds a
literal to the nearest double: a literal too small, such as `1e-400`, is read as zero and one
too large, such as `1e400`, as an infinity. -/
structure JNum where
  sign : Bool
  exponent : Fin 2048
  fraction : Fin 4503599627370496
deriving DecidableEq

/-- The number is `0` or `-0`. -/
def JNum.isZero (n : JNum) : Bool := n.exponent = 0 && n.fraction = 0

/-- The number is `NaN`. -/
def JNum.isNaN (n : JNum) : Bool := n.exponent = 2047 && n.fraction != 0

/-- The number is neither an infinity nor `NaN`. -/
def JNum.isFinite (n : JNum) : Bool := n.exponent != 2047

/-- The position of the leading binary digit of `n`, found in at most `fuel` halvings. -/
def log2Steps : Nat → Nat → Nat
  | 0, _ => 0
  | fuel + 1, n => if n < 2 then 0 else log2Steps fuel (n / 2) + 1

/-- The double that is the natural number `n`, exact for `n` below `2 ^ 53`. -/
def JNum.ofNat (n : Nat) : JNum :=
  if n = 0 then ⟨false, 0, 0⟩
  else
    ⟨false, Fin.ofNat (1023 + log2Steps n n),
      Fin.ofNat ((n - 2 ^ log2Steps n n) * 2 ^ (52 - log2Steps n n))⟩

/-- A value produced by a JSON reader, as the program holds it. An object is the list of its
own properties, in the order in which JavaScript enumerates them. -/
inductive JValue where
  | null
  | bool (b : Bool)
  | num (n : JNum)
  | str (s : String)
  | arr (xs : List JValue)
  | obj (kvs : List (String × JValue))

/-- A JavaScript value held by a variable of the program: `none` is `undefined`. -/
abbrev JSVal := Option JValue

/-- A thrown `Error` object, with the two properties `server.js` reads from it. -/
structure JSError where
  message : String
  stack : String

/-- The parts of the JavaScript runtime that the repository does not define. -/
structure Runtime where
  -- the `TypeError` raised when property `name` of `null` or `undefined` is read
  nullRead : String → JSError
  -- the `TypeError` raised when an object cannot be converted to a primitive
  notPrimitive : JSError
  -- the text `String(n)` of a number
  numberToString : JNum → String
  -- the function `JSON.parse`
  parse : String → Except JSError JValue
  -- the `RangeError` raised when a response is sent with a status outside 100 to 999
  invalidStatus : Nat → JSError

/-- The number `n` as JSON value. -/
def JValue.ofNat (n : Nat) : JValue := .num (JNum.ofNat n)

/-- JavaScript truthiness (`ToBoolean`): `undefined`, `null`, `false`, `0`, `-0`, `NaN` and
the empty string are falsy, everything else (the infinities, every array and every object
included) is truthy. -/
def truthy : JSVal → Bool
  | none => false
  | some .null => false
  | some (.bool b) => b
  | some (.num n) => !(n.isZero || n.isNaN)
  | some (.str s) => decide (s ≠ "")
  | some (.arr _) => true
  | some (.obj _) => true

/-- The expression `a || b` (both operands here are free of side effects). -/
def orElse (a b : JSVal) : JSVal := if truthy a then a else b

/-- The expression `v.name`, for a property name that no prototype defines (`model`, `prompt`,
`error`, `message`, `details`, `candidates`, `content`, `parts`, `text`): only an object can
have it, as an own property; reading it from `null` or `undefined` throws. -/
def field (rt : Runtime) (v : JSVal) (name : String) : Except JSError JSVal :=
  match v with
  | none => .error (rt.nullRead name)
  | some .null => .error (rt.nullRead name)
  | some (.obj kvs) => .ok (kvs.lookup name)
  | some _ => .ok none

/-- The expression `v[0]`: the first element of an array, the first character of a
string (as a one-character string), the own property `"0"` of an object. -/
def first (rt : Runtime) (v : JSVal) : Except JSError JSVal :=
  match v with
  | none => .error (rt.nullRead "0")
  | some .null => .error (rt.nullRead "0")
  | some (.arr xs) => .ok xs.head?
  | some (.str s) => .ok (if s = "" then none else some (.str (String.singleton (s.get 0))))
  | some (.obj kvs) => .ok (kvs.lookup "0")
  | some _ => .ok none

mutual
/-- String conversion of a JSON value, as performed by a template literal and by `+=` on a
string. An array is the comma-joined conversion of its elements. An object is
`[object Object]`, unless it has an own property `toString`: that property is a JSON value,
hence not callable, and the conversion throws. -/
def jsonToString (rt : Runtime) : JValue → Except JSError String
  | .null => .ok "null"
  | .bool b => .ok (if b then "true" else "false")
  | .num n => .ok (rt.numberToString n)
  | .str s => .ok s
  | .arr xs => (elementsToString rt xs).map (fun parts => ",".intercalate parts)
  | .obj kvs =>
    if (kvs.map Prod.fst).contains "toString" then .error rt.notPrimitive
    else .ok "[object Object]"
/-- The conversions of the elements of an array, as `Array.prototype.join` computes them:
`null` gives the empty string. -/
def elementsToString (rt : Runtime) : List JValue → Except JSError (List String)
  | [] => .ok []
  | .null :: rest => (elementsToString rt rest).map (fun parts => "" :: parts)
  | x :: rest =>
    match jsonToString rt x with
    | .error e => .error e
    | .ok s => (elementsToString rt rest).map (fun parts => s :: parts)
end

/-- String conversion of a JavaScript value. -/
def toStr (rt : Runtime) : JSVal → Except JSError String
  | none => .ok "undefined"
  | some v => jsonToString rt v

/-- An object literal as `JSON.stringify` takes it: a property whose value is `undefined`
is not written. -/
def jsonObj (props : List (String × JSVal)) : JValue :=
  .obj (props.filterMap (fun p => p.2.map (fun v => (p.1, v))))

/-! ## The `fetch` interface -/

/-- The arguments of one call of `fetch`; `body` is the value given to `JSON.stringify`. -/
structure FetchCall where
  url : String
  method : String
  headers : List (String × String)
  body : JValue

/-- A `Response` of `fetch`: its status and what `text()` and `json()` resolve to. -/
structure ApiRes where
  status : Nat
  text : Except JSError String
  json : Except JSError JValue

/-- The property `ok` of a `Response`: the status is in the range 200 to 299. -/
def ApiRes.ok (r : ApiRes) : Bool := decide (200 ≤ r.status) && decide (r.status ≤ 299)

/-- The outcome of awaiting `fetch(..)`: the promise rejects or resolves. -/
inductive FetchResult where
  | rejected (err : JSError)
  | resolved (res : ApiRes)

/-- Awaiting a `fetch` promise. -/
def FetchResult.await : FetchResult → Except JSError ApiRes
  | .rejected err => .error err
  | .resolved res => .ok res

/-! ## `server.js`: the relay -/

/-- The arguments of `res.status(status).json(body)`, and of `res.json(body)` with the
default status 200: what the handler hands to Express. What goes out is `deliver`. -/
structure Res where
  status : Nat
  body : JValue

/-- A response as the caller of the relay receives it: the status, and the JSON value of the
body when a body is sent. -/
structure Sent where
  status : Nat
  body : Option JValue

/-- The value a JSON reader gets from what `JSON.stringify` writes for a number: an infinity
or `NaN` is written as `null`, and `-0` as `0`. -/
def JNum.written (n : JNum) : JValue :=
  if n.isFinite then (if n.isZero then .num ⟨false, 0, 0⟩ else .num n) else .null

mutual
/-- The value a JSON reader gets from `JSON.stringify(v)`, the text `res.json(v)` sends. -/
def jsonWire : JValue → JValue
  | .num n => n.written
  | .arr xs => .arr (jsonWireElements xs)
  | .obj kvs => .obj (jsonWireProperties kvs)
  | v => v
/-- The elements of an array, each as written by `JSON.stringify`. -/
def jsonWireElements : List JValue → List JValue
  | [] => []
  | x :: rest => jsonWire x :: jsonWireElements rest
/-- The properties of an object, each as written by `JSON.stringify`. -/
def jsonWireProperties : List (String × JValue) → List (String × JValue)
  | [] => []
  | (k, x) :: rest => (k, jsonWire x) :: jsonWireProperties rest
end

mutual
/-- Every number in the value is finite and is not `-0`. -/
def plain : JValue → Bool
  | .num n => n.isFinite && !(n.sign && n.isZero)
  | .arr xs => plainElements xs
  | .obj kvs => plainProperties kvs
  | _ => true
/-- Every element is `plain`. -/
def plainElements : List JValue → Bool
  | [] => true
  | x :: rest => plain x && plainElements rest
/-- Every property value is `plain`. -/
def plainProperties : List (String × JValue) → Bool
  | [] => true
  | (_, x) :: rest => plain x && plainProperties rest
end

/-- The statuses with which no body goes out: Express empties the body for 204, 205 and 304,
and Node writes no body for 204, 304 and the informational statuses 100 to 199. -/
def bodiless (status : Nat) : Bool :=
  status = 204 || status = 205 || status = 304 || (100 ≤ status && status ≤ 199)

/-- What Express and Node send for `res.status(status).json(body)`. -/
def deliver (r : Res) : Sent :=
  ⟨r.status, if bodiless r.status then none else some (jsonWire r.body)⟩

/-- The array `validModels` of the handler. -/
def validModels : List String := ["gemini-1.5-pro"]

/-- The request body that the handler gives to `fetch`; the double nearest to `0.7` has the
bits `0x3FE6666666666666`. -/
def upstreamBody (prompt : JSVal) : JValue :=
  .obj [("contents", .arr [.obj [("parts", .arr [jsonObj [("text", prompt)]])]]),
        ("generationConfig", .obj [("temperature", .num ⟨false, 1022, 1801439850948198⟩),
                                   ("maxOutputTokens", JValue.ofNat 1024)])]

/-- The `fetch` call of the handler for a model name and a key. -/
def upstreamCall (model key : String) (prompt : JSVal) : FetchCall :=
  { url := "https://generativelanguage.googleapis.com/v1/models/" ++ model ++
      ":generateContent?key=" ++ key
    method := "POST"
    headers := [("Content-Type", "application/json")]
    body := upstreamBody prompt }

/-- The response for a payload without the expected shape. -/
def shapeError : Res :=
  ⟨500, .obj [("error", .str "Unexpected response format from Gemini API.")]⟩

/-- The `try` block of the handler, from the result of `fetch` on. Sending a response with
a status outside 100 to 999 throws inside `res.json`; the other statuses sent are the
constants 200 and 500. -/
def relayTry (rt : Runtime) (fr : FetchResult) : Except JSError Res := do
  let apiRes ← fr.await
  if !apiRes.ok then
    let errorText ← apiRes.text
    if apiRes.status < 100 || 999 < apiRes.status then
      throw (rt.invalidStatus apiRes.status)
    return ⟨apiRes.status, .obj [("error", .str "Error from Gemini API"),
      ("status", JValue.ofNat apiRes.status), ("details", .str errorText)]⟩
  let data ← apiRes.json
  let error ← field rt (some data) "error"
  if truthy error then
    let message ← field rt error "message"
    return ⟨500, jsonObj [("error", orElse message (some (.str "Gemini API error.")))]⟩
  let candidates ← field rt (some data) "candidates"
  if !truthy candidates then return shapeError
  let candidate ← first rt candidates
  if !truthy candidate then return shapeError
  let content ← field rt candidate "content"
  if !truthy content then return shapeError
  return ⟨200, data⟩

/-- The `catch (err)` block of the handler. -/
def relayCatch (err : JSError) : Res :=
  ⟨500, .obj [("error", .str "Error connecting to Gemini API."),
    ("details", .str err.message), ("stack", .str err.stack)]⟩

/-- The handler of `POST /api/gemini`. `GEMINI_API_KEY` is the environment variable
(`none` when unset), `fetch` is the upstream service and `reqBody` the named own properties
of `req.body`, which `express.json()` sets to an object or an array (an array has none of the
names read here and is the empty list). The result is the response sent and the `fetch` calls
made. `validModels.includes(model)` holds only for a string, since the list holds only
strings. -/
def handler (rt : Runtime) (GEMINI_API_KEY : Option String) (fetch : FetchCall → FetchResult)
    (reqBody : List (String × JValue)) : Res × List FetchCall :=
  let model : JSVal := reqBody.lookup "model"
  let prompt : JSVal := reqBody.lookup "prompt"
  if !truthy model || !truthy prompt then
    (⟨400, .obj [("error", .str "Model and prompt are required.")]⟩, [])
  else
    match GEMINI_API_KEY with
    | none => (⟨500, .obj [("error", .str "Gemini API key not set in backend.")]⟩, [])
    | some key =>
      if key = "" then
        (⟨500, .obj [("error", .str "Gemini API key not set in backend.")]⟩, [])
      else
        match model with
        | some (.str m) =>
          if validModels.contains m then
            let call := upstreamCall m key prompt
            match relayTry rt (fetch call) with
            | .ok sent => (sent, [call])
            | .error err => (relayCatch err, [call])
          else
            (⟨400, .obj [("error", .str ("Invalid model name. Use: " ++
              ", ".intercalate validModels))]⟩, [])
        | _ =>
          (⟨400, .obj [("error", .str ("Invalid model name. Use: " ++
            ", ".intercalate validModels))]⟩, [])

/-! ## `script.js`: the chat client -/

/-- The constant `GEMINI_MODEL`. -/
def GEMINI_MODEL : String := "gemini-1.5-pro"

/-- The `fetch` call of `getGeminiResponse` for the text `input`. -/
def chatCall (input : String) : FetchCall :=
  { url := "/api/gemini"
    method := "POST"
    headers := [("Content-Type", "application/json")]
    body := .obj [("model", .str GEMINI_MODEL),
      ("prompt", .str ("You are a helpful healthcare assistant. Answer the following " ++
        "question with general advice only, and remind users to consult a doctor for " ++
        "serious issues.\n\nUser: " ++ input))] }

/-- The inner `try` block of the branch `!res.ok`: the text appended to `errorMessage`
when `errorText` parses. -/
def errorDetail (rt : Runtime) (errorText : String) : Except JSError String := do
  let errorJson ← rt.parse errorText
  let error ← field rt (some errorJson) "error"
  if truthy error then toStr rt error
  else
    let message ← field rt (some errorJson) "message"
    if truthy message then toStr rt message
    else
      let details ← field rt (some errorJson) "details"
      toStr rt (orElse details (some (.str "Unknown error")))

/-- The string returned by the branch `!res.ok`, with its inner `try` and `catch`. -/
def errorReply (rt : Runtime) (status : Nat) (errorText : String) : String :=
  let errorMessage := "Error (" ++ toString status ++ "): "
  match errorDetail rt errorText with
  | .ok detail => errorMessage ++ detail
  | .error _ => errorMessage ++ (if errorText = "" then "Unknown error" else errorText)

/-- The value of the condition `data && data.candidates && .. && ..parts[0].text`: the
first falsy operand, or the last operand. When it is truthy it is the value of
`data.candidates[0].content.parts[0].text`, which the function then returns. -/
def candidateText (rt : Runtime) (data : JValue) : Except JSError JSVal := do
  if !truthy (some data) then return some data
  let candidates ← field rt (some data) "candidates"
  if !truthy candidates then return candidates
  let candidate ← first rt candidates
  if !truthy candidate then return candidate
  let content ← field rt candidate "content"
  if !truthy content then return content
  let parts ← field rt content "parts"
  if !truthy parts then return parts
  let part ← first rt parts
  field rt part "text"

/-- The `try` block of `getGeminiResponse`, from the result of `fetch` on. -/
def chatTry (rt : Runtime) (fr : FetchResult) : Except JSError JSVal := do
  let res ← fr.await
  if !res.ok then
    let errorText ← res.text
    return some (.str (errorReply rt res.status errorText))
  let data ← res.json
  let error ← field rt (some data) "error"
  if truthy error then
    let message ← field rt error "message"
    let shown ← toStr rt (orElse message error)
    return some (.str ("Error: " ++ shown))
  let text ← candidateText rt data
  if truthy text then return text
  else return some (.str "Sorry, I couldn\x27t get a response from the AI. Please try again later.")

/-- The function `getGeminiResponse`: `.ok v` when it returns `v`, `.error e` when it throws
`e` (its promise rejects). -/
def getGeminiResponse (rt : Runtime) (fetch : FetchCall → FetchResult) (input : String) :
    Except JSError JSVal :=
  match chatTry rt (fetch (chatCall input)) with
  | .ok v => .ok v
  | .error _ =>
    .ok (some (.str "Error connecting to Gemini API. Please check your connection and try again."))

/-! ## Sample data -/

/-- The text of a number in the examples: exact for the integers below `2 ^ 53`, the only
numbers the examples hold. -/
def sampleNumberText (n : JNum) : String :=
  if n.isZero then "0"
  else
    (if n.sign then "-" else "") ++
      toString ((4503599627370496 + n.fraction.val) / 2 ^ (1075 - n.exponent.val))

/-- A runtime for the examples: the messages of one engine and a JSON reader that accepts
no text. -/
def sampleRuntime : Runtime :=
  { nullRead := fun name =>
      ⟨"Cannot read properties of null (reading " ++ name ++ ")", "TypeError"⟩
    notPrimitive := ⟨"Cannot convert object to primitive value", "TypeError"⟩
    numberToString := sampleNumberText
    parse := fun _ => .error ⟨"Unexpected token", "SyntaxError"⟩
    invalidStatus := fun status => ⟨"Invalid status code: " ++ toString status, "RangeError"⟩ }

/-- An upstream that is down: every call fails. -/
def downFetch : FetchCall → FetchResult :=
  fun _ => .rejected ⟨"fetch failed", "TypeError: fetch failed"⟩

/-- An upstream that answers every call with status 200 and the payload `d`. -/
def payloadFetch (d : JValue) : FetchCall → FetchResult :=
  fun _ => .resolved ⟨200, .ok "", .ok d⟩

/-- The payload `{candidates: [{content: {parts: [{text: t}]}}]}` with the text `t`. -/
def textPayload (t : JValue) : JValue :=
  .obj [("candidates", .arr [.obj [("content", .obj [("parts", .arr [.obj [("text", t)]])])]])]

/-- A request body that passes the three checks of the handler. -/
def sampleRequest : List (String × JValue) :=
  [("model", .str "gemini-1.5-pro"), ("prompt", .str "Hi")]

/-! ## Lemmas -/

@[simp] theorem truthy_undefined : truthy none = false := rfl
@[simp] theorem truthy_null : truthy (some .null) = false := rfl
@[simp] theorem truthy_bool (b : Bool) : truthy (some (.bool b)) = b := rfl
@[simp] theorem truthy_num (n : JNum) :
    truthy (some (.num n)) = !(n.isZero || n.isNaN) := rfl
@[simp] theorem truthy_str (s : String) : truthy (some (.str s)) = decide (s ≠ "") := rfl
@[simp] theorem truthy_arr (xs : List JValue) : truthy (some (.arr xs)) = true := rfl
@[simp] theorem truthy_obj (kvs : List (String × JValue)) : truthy (some (.obj kvs)) = true := rfl

@[simp] theorem field_obj (rt : Runtime) (kvs : List (String × JValue)) (name : String) :
    field rt (some (.obj kvs)) name = .ok (kvs.lookup name) := rfl
@[simp] theorem field_bool (rt : Runtime) (b : Bool) (name : String) :
    field rt (some (.bool b)) name = .ok none := rfl
@[simp] theorem field_num (rt : Runtime) (n : JNum) (name : String) :
    field rt (some (.num n)) name = .ok none := rfl
@[simp] theorem field_str (rt : Runtime) (s : String) (name : String) :
    field rt (some (.str s)) name = .ok none := rfl
@[simp] theorem field_arr (rt : Runtime) (xs : List JValue) (name : String) :
    field rt (some (.arr xs)) name = .ok none := rfl
@[simp] theorem field_null (rt : Runtime) (name : String) :
    field rt (some .null) name = .error (rt.nullRead name) := rfl
@[simp] theorem field_undefined (rt : Runtime) (name : String) :
    field rt none name = .error (rt.nullRead name) := rfl

@[simp] theorem first_arr (rt : Runtime) (xs : List JValue) :
    first rt (some (.arr xs)) = .ok xs.head? := rfl
@[simp] theorem first_obj (rt : Runtime) (kvs : List (String × JValue)) :
    first rt (some (.obj kvs)) = .ok (kvs.lookup "0") := rfl
@[simp] theorem first_str (rt : Runtime) (s : String) :
    first rt (some (.str s)) =
      .ok (if s = "" then none else some (.str (String.singleton (s.get 0)))) := rfl
@[simp] theorem first_bool (rt : Runtime) (b : Bool) :
    first rt (some (.bool b)) = .ok none := rfl
@[simp] theorem first_num (rt : Runtime) (n : JNum) :
    first rt (some (.num n)) = .ok none := rfl
@[simp] theorem first_null (rt : Runtime) :
    first rt (some .null) = .error (rt.nullRead "0") := rfl
@[simp] theorem first_undefined (rt : Runtime) :
    first rt none = .error (rt.nullRead "0") := rfl

theorem log2Steps_le (fuel n : Nat) : log2Steps fuel n ≤ fuel := by
  induction fuel generalizing n with
  | zero => simp [log2Steps]
  | succ f ih =>
    unfold log2Steps
    split
    · omega
    · have := ih (n / 2)
      omega

/-- A status is a finite double, written by `JSON.stringify` as it is. -/
theorem written_ofNat (n : Nat) (h : n ≤ 999) :
    (JNum.ofNat n).written = .num (JNum.ofNat n) := by
  by_cases h0 : n = 0
  · subst h0
    rfl
  · have hl := log2Steps_le n n
    have hfin : (JNum.ofNat n).isFinite = true := by
      simp only [JNum.ofNat, h0, if_false, JNum.isFinite, bne_iff_ne, ne_eq]
      intro hc
      have := congrArg Fin.val hc
      simp [Fin.ofNat] at this
      omega
    have hnz : (JNum.ofNat n).isZero = false := by
      simp only [JNum.ofNat, h0, if_false, JNum.isZero, Bool.and_eq_false_iff,
        decide_eq_false_iff_not]
      left
      intro hc
      have := congrArg Fin.val hc
      simp [Fin.ofNat] at this
      omega
    simp [JNum.written, hfin, hnz]

mutual
/-- A value whose numbers are all finite and not `-0` is written by `JSON.stringify` as it
is. -/
theorem jsonWire_plain : ∀ v : JValue, plain v = true → jsonWire v = v
  | .null, _ => rfl
  | .bool _, _ => rfl
  | .str _, _ => rfl
  | .num n, h => by
    simp only [plain, Bool.and_eq_true, Bool.not_eq_true'] at h
    simp only [jsonWire, JNum.written, h.1, if_true]
    split
    · rename_i hz
      have hs : n.sign = false := by
        cases hsg : n.sign with
        | false => rfl
        | true => simp [hsg, hz] at h
      simp only [JNum.isZero, Bool.and_eq_true, decide_eq_true_eq] at hz
      congr 1
      cases n
      simp_all
    · rfl
  | .arr xs, h => by
    simp only [plain] at h
    simp only [jsonWire, jsonWireElements_plain xs h]
  | .obj kvs, h => by
    simp only [plain] at h
    simp only [jsonWire, jsonWireProperties_plain kvs h]
theorem jsonWireElements_plain :
    ∀ xs : List JValue, plainElements xs = true → jsonWireElements xs = xs
  | [], _ => rfl
  | x :: rest, h => by
    simp only [plainElements, Bool.and_eq_true] at h
    simp only [jsonWireElements, jsonWire_plain x h.1, jsonWireElements_plain rest h.2]
theorem jsonWireProperties_plain :
    ∀ kvs : List (String × JValue), plainProperties kvs = true → jsonWireProperties kvs = kvs
  | [], _ => rfl
  | (k, x) :: rest, h => by
    simp only [plainProperties, Bool.and_eq_true] at h
    simp only [jsonWireProperties, jsonWire_plain x h.1, jsonWireProperties_plain rest h.2]
end

/-- Reading a property that a value other than `null` does not have yields `undefined`. -/
theorem field_of_absent (rt : Runtime) (d : JValue) (name : String) (hnn : d ≠ .null)
    (h : ∀ v, field rt (some d) name ≠ .ok (some v)) : field rt (some d) name = .ok none := by
  cases d with
  | null => exact absurd rfl hnn
  | obj kvs =>
    cases hl : kvs.lookup name with
    | none => simp [hl]
    | some v => exact absurd (by simp [hl]) (h v)
  | _ => rfl

theorem truthy_str_of_mem_validModels {m : String} (hv : m ∈ validModels) :
    truthy (some (.str m)) = true := by
  simp [validModels] at hv
  subst hv
  simp [truthy]

/-- A request with a falsy `model` or `prompt` is answered with status 400 by the first
check, before the key is looked at and without a `fetch` call. -/
theorem handler_of_falsy (rt : Runtime) (key : Option String) (fetch : FetchCall → FetchResult)
    (reqBody : List (String × JValue))
    (h : truthy (reqBody.lookup "model") = false ∨ truthy (reqBody.lookup "prompt") = false) :
    handler rt key fetch reqBody =
      (⟨400, .obj [("error", .str "Model and prompt are required.")]⟩, []) := by
  unfold handler
  rcases h with h | h <;> simp [h]

/-- A request that passes the three checks is answered by the `try` block, or by the
`catch` block when the `try` block throws, after exactly one `fetch` call. -/
theorem handler_of_valid (rt : Runtime) (key : String) (fetch : FetchCall → FetchResult)
    (reqBody : List (String × JValue)) (m : String)
    (hm : reqBody.lookup "model" = some (.str m)) (hv : m ∈ validModels)
    (hp : truthy (reqBody.lookup "prompt") = true) (hk : key ≠ "") :
    handler rt (some key) fetch reqBody =
      (match relayTry rt (fetch (upstreamCall m key (reqBody.lookup "prompt"))) with
        | .ok sent => sent
        | .error err => relayCatch err,
       [upstreamCall m key (reqBody.lookup "prompt")]) := by
  have hmt := truthy_str_of_mem_validModels hv
  have hc : validModels.contains m = true := by simpa using hv
  unfold handler
  simp only [hm, hmt, hp, hk, hc]
  simp
  cases relayTry rt (fetch (upstreamCall m key (reqBody.lookup "prompt"))) <;> rfl


/-! ## The relay: validation -/

/-- Claim C2. A request body whose `model` or `prompt` is absent or the empty string is
answered with status 400 and the body `{error: "Model and prompt are required."}`, for
every value of the key, set or not, and no `fetch` call is made. -/
theorem missing_model_or_prompt_is_400 (rt : Runtime) (key : Option String)
    (fetch : FetchCall → FetchResult) (reqBody : List (String × JValue))
    (h : reqBody.lookup "model" = none ∨ reqBody.lookup "model" = some (.str "") ∨
      reqBody.lookup "prompt" = none ∨ reqBody.lookup "prompt" = some (.str "")) :
    (handler rt key fetch reqBody).1 =
        ⟨400, .obj [("error", .str "Model and prompt are required.")]⟩ ∧
      (handler rt key fetch reqBody).2 = [] ∧
      deliver (handler rt key fetch reqBody).1 =
        ⟨400, some (.obj [("error", .str "Model and prompt are required.")])⟩ := by
  have hf : truthy (reqBody.lookup "model") = false ∨
      truthy (reqBody.lookup "prompt") = false := by
    rcases h with h | h | h | h
    · exact Or.inl (by rw [h]; rfl)
    · exact Or.inl (by rw [h]; rfl)
    · exact Or.inr (by rw [h]; rfl)
    · exact Or.inr (by rw [h]; rfl)
  rw [handler_of_falsy rt key fetch reqBody hf]
  exact ⟨rfl, rfl, rfl⟩

theorem missing_model_or_prompt_is_400_witness :
    (handler sampleRuntime (some "k") downFetch [("model", .str "gemini-1.5-pro")]).1 =
        ⟨400, .obj [("error", .str "Model and prompt are required.")]⟩ ∧
      (handler sampleRuntime (some "k") downFetch [("model", .str "gemini-1.5-pro")]).2 = [] ∧
      deliver (handler sampleRuntime (some "k") downFetch
          [("model", .str "gemini-1.5-pro")]).1 =
        ⟨400, some (.obj [("error", .str "Model and prompt are required.")])⟩ :=
  missing_model_or_prompt_is_400 sampleRuntime (some "k") downFetch
    [("model", .str "gemini-1.5-pro")] (Or.inr (Or.inr (Or.inl rfl)))

/-- Claim C1, counterexample. With no key set, the empty request body is answered with
status 400 and the message about `model` and `prompt`, not with status 500. -/
theorem unset_key_invalid_request_is_400 :
    (handler sampleRuntime none downFetch []).1 =
        ⟨400, .obj [("error", .str "Model and prompt are required.")]⟩ ∧
      (handler sampleRuntime none downFetch []).1.status ≠ 500 := by
  refine ⟨rfl, ?_⟩
  decide

/-- Claim C1, amended. When the key is unset or empty and `model` and `prompt` are both
truthy, the request is answered with status 500 and the body
`{error: "Gemini API key not set in backend."}`, and no `fetch` call is made. -/
theorem unset_key_is_500 (rt : Runtime) (key : Option String)
    (fetch : FetchCall → FetchResult) (reqBody : List (String × JValue))
    (hk : key = none ∨ key = some "")
    (hm : truthy (reqBody.lookup "model") = true)
    (hp : truthy (reqBody.lookup "prompt") = true) :
    handler rt key fetch reqBody =
        (⟨500, .obj [("error", .str "Gemini API key not set in backend.")]⟩, []) ∧
      deliver (handler rt key fetch reqBody).1 =
        ⟨500, some (.obj [("error", .str "Gemini API key not set in backend.")])⟩ := by
  have hsent : handler rt key fetch reqBody =
      (⟨500, .obj [("error", .str "Gemini API key not set in backend.")]⟩, []) := by
    unfold handler
    rcases hk with hk | hk <;> subst hk <;> simp [hm, hp]
  refine ⟨hsent, ?_⟩
  rw [hsent]
  rfl

theorem unset_key_is_500_witness :
    handler sampleRuntime none downFetch sampleRequest =
        (⟨500, .obj [("error", .str "Gemini API key not set in backend.")]⟩, []) ∧
      deliver (handler sampleRuntime none downFetch sampleRequest).1 =
        ⟨500, some (.obj [("error", .str "Gemini API key not set in backend.")])⟩ :=
  unset_key_is_500 sampleRuntime none downFetch sampleRequest (Or.inl rfl) rfl rfl

/-- Claim C3. With a key set and truthy `model` and `prompt`, a `model` that is not one of
the strings of `validModels` is answered with status 400 and an error message in which
every member of `validModels` occurs, and no `fetch` call is made. -/
theorem unknown_model_is_400 (rt : Runtime) (key : String)
    (fetch : FetchCall → FetchResult) (reqBody : List (String × JValue))
    (hk : key ≠ "")
    (hm : truthy (reqBody.lookup "model") = true)
    (hp : truthy (reqBody.lookup "prompt") = true)
    (hv : ∀ m ∈ validModels, reqBody.lookup "model" ≠ some (.str m)) :
    ∃ msg : String,
      handler rt (some key) fetch reqBody = (⟨400, .obj [("error", .str msg)]⟩, []) ∧
      (∀ m ∈ validModels, m.data <:+: msg.data) ∧
      deliver (handler rt (some key) fetch reqBody).1 =
        ⟨400, some (.obj [("error", .str msg)])⟩ := by
  have hsent : handler rt (some key) fetch reqBody =
      (⟨400, .obj [("error", .str ("Invalid model name. Use: " ++
        ", ".intercalate validModels))]⟩, []) := by
    unfold handler
    cases hmod : reqBody.lookup "model" with
    | none =>
      rw [hmod] at hm
      exact absurd hm (by simp [truthy])
    | some v =>
      rw [hmod] at hm
      cases v with
      | str m =>
        have hn : m ∉ validModels := fun hmem => absurd hmod (hv m hmem)
        simp [hm, hp, hk, hn]
      | _ => simp [hm, hp, hk]
  refine ⟨"Invalid model name. Use: " ++ ", ".intercalate validModels, hsent, ?_, ?_⟩
  · intro m hmem
    simp [validModels] at hmem
    subst hmem
    exact ⟨"Invalid model name. Use: ".data, [], rfl⟩
  · rw [hsent]
    rfl

theorem unknown_model_is_400_witness :
    ∃ msg : String,
      handler sampleRuntime (some "k") downFetch
          [("model", .str "gemini-pro"), ("prompt", .str "Hi")] =
        (⟨400, .obj [("error", .str msg)]⟩, []) ∧
      (∀ m ∈ validModels, m.data <:+: msg.data) ∧
      deliver (handler sampleRuntime (some "k") downFetch
          [("model", .str "gemini-pro"), ("prompt", .str "Hi")]).1 =
        ⟨400, some (.obj [("error", .str msg)])⟩ :=
  unknown_model_is_400 sampleRuntime "k" downFetch
    [("model", .str "gemini-pro"), ("prompt", .str "Hi")] (by decide) rfl rfl
    (by simp [validModels, List.lookup])

/-! ## The relay: upstream answers -/

/-- Claim C4, counterexample. An upstream answer with status 304 and the body text `cached`
is relayed with status 304 and no body: Express empties the body of a 304 response. -/
theorem not_modified_is_relayed_without_body :
    deliver (handler sampleRuntime (some "k")
        (fun _ => .resolved ⟨304, .ok "cached", .error ⟨"bad", "bad"⟩⟩) sampleRequest).1 =
        ⟨304, none⟩ ∧
      deliver (handler sampleRuntime (some "k")
        (fun _ => .resolved ⟨304, .ok "cached", .error ⟨"bad", "bad"⟩⟩) sampleRequest).1 ≠
        ⟨304, some (.obj [("error", .str "Error from Gemini API"),
          ("status", JValue.ofNat 304), ("details", .str "cached")])⟩ := by
  have h : deliver (handler sampleRuntime (some "k")
      (fun _ => .resolved ⟨304, .ok "cached", .error ⟨"bad", "bad"⟩⟩) sampleRequest).1 =
      ⟨304, none⟩ := rfl
  refine ⟨h, ?_⟩
  rw [h]
  intro hc
  have hb := congrArg Sent.body hc
  simp at hb

/-- Claim C4, amended. For a request that passes validation, an upstream answer with a
status `s` from 100 to 999 outside 200..299 and body text `t` is relayed with the same
status `s`. The body sent is `{error: "Error from Gemini API", status: s, details: t}`,
except for `s = 304` and for the informational statuses up to 199, where no body goes out. -/
theorem upstream_http_error_is_relayed (rt : Runtime) (key : String)
    (fetch : FetchCall → FetchResult) (reqBody : List (String × JValue)) (m : String)
    (r : ApiRes) (s : Nat) (t : String)
    (hm : reqBody.lookup "model" = some (.str m)) (hv : m ∈ validModels)
    (hp : truthy (reqBody.lookup "prompt") = true) (hk : key ≠ "")
    (hf : fetch (upstreamCall m key (reqBody.lookup "prompt")) = .resolved r)
    (hs : r.status = s) (hcode : 100 ≤ s ∧ s ≤ 999) (hnok : ¬ (200 ≤ s ∧ s ≤ 299))
    (ht : r.text = .ok t) :
    deliver (handler rt (some key) fetch reqBody).1 =
      ⟨s, if s = 304 ∨ s ≤ 199 then none
        else some (.obj [("error", .str "Error from Gemini API"),
          ("status", .num (JNum.ofNat s)), ("details", .str t)])⟩ := by
  have hok : r.ok = false := by
    subst hs
    simp only [ApiRes.ok]
    by_cases h1 : 200 ≤ r.status
    · have h2 : ¬ r.status ≤ 299 := fun h2 => hnok ⟨h1, h2⟩
      simp [h2]
    · simp [h1]
  have hrange : (decide (r.status < 100) || decide (999 < r.status)) = false := by
    subst hs
    have h1 : ¬ r.status < 100 := by omega
    have h2 : ¬ 999 < r.status := by omega
    simp [h1, h2]
  have hsent : (handler rt (some key) fetch reqBody).1 =
      ⟨s, .obj [("error", .str "Error from Gemini API"), ("status", .num (JNum.ofNat s)),
        ("details", .str t)]⟩ := by
    rw [handler_of_valid rt key fetch reqBody m hm hv hp hk, hf]
    simp only [relayTry, FetchResult.await, hok, ht, hrange, bind, Except.bind, pure,
      Except.pure]
    simp [hs, JValue.ofNat]
  rw [hsent]
  have hw := written_ofNat s hcode.2
  by_cases hb : s = 304 ∨ s ≤ 199
  · have hbl : bodiless s = true := by
      rcases hb with hb | hb
      · subst hb
        decide
      · simp only [bodiless, Bool.or_eq_true, Bool.and_eq_true, decide_eq_true_eq]
        right
        exact ⟨hcode.1, hb⟩
    simp [deliver, hbl, hb]
  · have hbl : bodiless s = false := by
      simp only [bodiless, Bool.or_eq_false_iff, Bool.and_eq_false_iff,
        decide_eq_false_iff_not]
      refine ⟨⟨⟨?_, ?_⟩, ?_⟩, ?_⟩ <;> omega
    simp [deliver, hbl, hb, jsonWire, jsonWireProperties, hw]

theorem upstream_http_error_is_relayed_witness :
    deliver (handler sampleRuntime (some "k")
        (fun _ => .resolved ⟨503, .ok "overloaded", .error ⟨"bad", "bad"⟩⟩) sampleRequest).1 =
      ⟨503, if 503 = 304 ∨ 503 ≤ 199 then none
        else some (.obj [("error", .str "Error from Gemini API"),
          ("status", .num (JNum.ofNat 503)), ("details", .str "overloaded")])⟩ :=
  upstream_http_error_is_relayed sampleRuntime "k"
    (fun _ => .resolved ⟨503, .ok "overloaded", .error ⟨"bad", "bad"⟩⟩) sampleRequest
    "gemini-1.5-pro" ⟨503, .ok "overloaded", .error ⟨"bad", "bad"⟩⟩ 503 "overloaded"
    rfl (by decide) rfl (by decide) rfl rfl (by decide) (by decide) rfl

/-- Claim C5, counterexample. The payload `{error: {message: ""}}` has an `error` field
whose message is the empty string; the relay answers with the message
`Gemini API error.` in place of it. -/
theorem empty_error_message_is_replaced :
    (handler sampleRuntime (some "k")
        (payloadFetch (.obj [("error", .obj [("message", .str "")])])) sampleRequest).1 =
        ⟨500, .obj [("error", .str "Gemini API error.")]⟩ ∧
      (handler sampleRuntime (some "k")
        (payloadFetch (.obj [("error", .obj [("message", .str "")])])) sampleRequest).1 ≠
        ⟨500, .obj [("error", .str "")]⟩ ∧
      deliver (handler sampleRuntime (some "k")
        (payloadFetch (.obj [("error", .obj [("message", .str "")])])) sampleRequest).1 =
        ⟨500, some (.obj [("error", .str "Gemini API error.")])⟩ := by
  refine ⟨rfl, ?_, rfl⟩
  intro h
  have hb := congrArg Res.body h
  revert hb
  change JValue.obj [("error", .str "Gemini API error.")] ≠ JValue.obj [("error", .str "")]
  simp

/-- Claim C5, amended. For a request that passes validation, an upstream success answer
whose payload has a truthy `error` is answered with status 500 and the body `{error: m}`,
where `m` is `error.message` when that is truthy and `Gemini API error.` otherwise, as
`JSON.stringify` writes it: a message that is an infinite number goes out as `null`. -/
theorem upstream_api_error_is_500 (rt : Runtime) (key : String)
    (fetch : FetchCall → FetchResult) (reqBody : List (String × JValue)) (m : String)
    (r : ApiRes) (d : JValue) (e : JSVal)
    (hm : reqBody.lookup "model" = some (.str m)) (hv : m ∈ validModels)
    (hp : truthy (reqBody.lookup "prompt") = true) (hk : key ≠ "")
    (hf : fetch (upstreamCall m key (reqBody.lookup "prompt")) = .resolved r)
    (hok : r.ok = true) (hd : r.json = .ok d)
    (he : field rt (some d) "error" = .ok e) (het : truthy e = true) :
    ∃ (message : JSVal) (shown : JValue),
      field rt e "message" = .ok message ∧
      deliver (handler rt (some key) fetch reqBody).1 =
        ⟨500, some (.obj [("error", jsonWire shown)])⟩ ∧
      (if truthy message then message = some shown
        else shown = .str "Gemini API error.") ∧
      (plain shown = true → jsonWire shown = shown) := by
  have hfield : ∃ message, field rt e "message" = .ok message := by
    cases e with
    | none => simp at het
    | some v => cases v <;> first | exact ⟨_, rfl⟩ | simp at het
  obtain ⟨message, hmsg⟩ := hfield
  have hsent : (handler rt (some key) fetch reqBody).1 =
      ⟨500, jsonObj [("error", orElse message (some (.str "Gemini API error.")))]⟩ := by
    rw [handler_of_valid rt key fetch reqBody m hm hv hp hk, hf]
    simp [relayTry, FetchResult.await, hok, hd, he, het, hmsg, bind, Except.bind, pure,
      Except.pure]
  have hbl : bodiless 500 = false := by decide
  by_cases hmt : truthy message = true
  · cases message with
    | none => simp at hmt
    | some shown =>
      refine ⟨some shown, shown, hmsg, ?_, ?_, jsonWire_plain shown⟩
      · rw [hsent]
        simp [deliver, hbl, orElse, hmt, jsonObj, jsonWire, jsonWireProperties]
      · simp [hmt]
  · refine ⟨message, .str "Gemini API error.", hmsg, ?_, ?_, jsonWire_plain _⟩
    · rw [hsent]
      simp [deliver, hbl, orElse, hmt, jsonObj, jsonWire, jsonWireProperties]
    · simp [hmt]

theorem upstream_api_error_is_500_witness :
    ∃ (message : JSVal) (shown : JValue),
      field sampleRuntime (some (.obj [("message", .str "quota")])) "message" = .ok message ∧
      deliver (handler sampleRuntime (some "k")
        (payloadFetch (.obj [("error", .obj [("message", .str "quota")])])) sampleRequest).1 =
        ⟨500, some (.obj [("error", jsonWire shown)])⟩ ∧
      (if truthy message then message = some shown
        else shown = .str "Gemini API error.") ∧
      (plain shown = true → jsonWire shown = shown) :=
  upstream_api_error_is_500 sampleRuntime "k"
    (payloadFetch (.obj [("error", .obj [("message", .str "quota")])])) sampleRequest
    "gemini-1.5-pro" ⟨200, .ok "", .ok (.obj [("error", .obj [("message", .str "quota")])])⟩
    (.obj [("error", .obj [("message", .str "quota")])])
    (some (.obj [("message", .str "quota")]))
    rfl (by decide) rfl (by decide) rfl rfl rfl rfl rfl

/-- Claim C6, counterexample. The payload `null` has no `error` and no `candidates`, yet
the relay does not answer with the format error: reading `data.error` throws and the
`catch` block answers with the connection error, the message of the exception and its
stack. -/
theorem null_payload_is_answered_by_catch :
    (∀ e, field sampleRuntime (some .null) "error" ≠ .ok (some e)) ∧
      (∀ c, field sampleRuntime (some .null) "candidates" ≠ .ok (some c)) ∧
      deliver (handler sampleRuntime (some "k") (payloadFetch .null) sampleRequest).1 =
        ⟨500, some (.obj [("error", .str "Error connecting to Gemini API."),
          ("details", .str "Cannot read properties of null (reading error)"),
          ("stack", .str "TypeError")])⟩ ∧
      deliver (handler sampleRuntime (some "k") (payloadFetch .null) sampleRequest).1 ≠
        ⟨500, some (.obj [("error", .str "Unexpected response format from Gemini API.")])⟩ := by
  have h : deliver (handler sampleRuntime (some "k") (payloadFetch .null) sampleRequest).1 =
      ⟨500, some (.obj [("error", .str "Error connecting to Gemini API."),
        ("details", .str "Cannot read properties of null (reading error)"),
        ("stack", .str "TypeError")])⟩ := rfl
  refine ⟨fun e he => by simp at he, fun c hc => by simp at hc, h, ?_⟩
  rw [h]
  intro hc
  have hb := congrArg Sent.body hc
  simp at hb

/-- Claim C6, amended. For a request that passes validation, an upstream success answer
whose payload is not `null`, has no `error`, and whose `candidates` is missing, or is the
empty array, or is an array whose first element yields no `content`, is answered with
status 500 and the fixed body `{error: "Unexpected response format from Gemini API."}`,
which holds nothing of the payload. -/
theorem upstream_shape_error_is_500 (rt : Runtime) (key : String)
    (fetch : FetchCall → FetchResult) (reqBody : List (String × JValue)) (m : String)
    (r : ApiRes) (d : JValue)
    (hm : reqBody.lookup "model" = some (.str m)) (hv : m ∈ validModels)
    (hp : truthy (reqBody.lookup "prompt") = true) (hk : key ≠ "")
    (hf : fetch (upstreamCall m key (reqBody.lookup "prompt")) = .resolved r)
    (hok : r.ok = true) (hd : r.json = .ok d)
    (hnn : d ≠ .null)
    (hne : ∀ e, field rt (some d) "error" ≠ .ok (some e))
    (hshape : (∀ c, field rt (some d) "candidates" ≠ .ok (some c)) ∨
      field rt (some d) "candidates" = .ok (some (.arr [])) ∨
      ∃ c rest, field rt (some d) "candidates" = .ok (some (.arr (c :: rest))) ∧
        ∀ content, field rt (some c) "content" ≠ .ok (some content)) :
    deliver (handler rt (some key) fetch reqBody).1 =
      ⟨500, some (.obj [("error", .str "Unexpected response format from Gemini API.")])⟩ := by
  have he := field_of_absent rt d "error" hnn hne
  have hsent : (handler rt (some key) fetch reqBody).1 = shapeError := by
    rw [handler_of_valid rt key fetch reqBody m hm hv hp hk, hf]
    simp only [relayTry, FetchResult.await, hok, hd, he, bind, Except.bind, pure, Except.pure]
    rcases hshape with hc | hc | ⟨c, rest, hc, hno⟩
    · simp [field_of_absent rt d "candidates" hnn hc]
    · simp [hc]
    · cases c with
      | obj kvs =>
        have hl : kvs.lookup "content" = none := by
          cases hl : kvs.lookup "content" with
          | none => rfl
          | some content => exact absurd (by simp [hl]) (hno content)
        simp [hc, hl]
      | null => simp [hc]
      | bool b => cases b <;> simp [hc]
      | num n => cases htn : truthy (some (.num n)) <;> simp [hc, htn]
      | str s => by_cases hs : s = "" <;> simp [hc, hs]
      | arr xs => simp [hc]
  rw [hsent]
  rfl

theorem upstream_shape_error_is_500_witness :
    deliver (handler sampleRuntime (some "k")
        (payloadFetch (.obj [("candidates", .arr [.obj [("finishReason", .str "SAFETY")]])]))
        sampleRequest).1 =
      ⟨500, some (.obj [("error", .str "Unexpected response format from Gemini API.")])⟩ :=
  upstream_shape_error_is_500 sampleRuntime "k"
    (payloadFetch (.obj [("candidates", .arr [.obj [("finishReason", .str "SAFETY")]])]))
    sampleRequest "gemini-1.5-pro"
    ⟨200, .ok "", .ok (.obj [("candidates", .arr [.obj [("finishReason", .str "SAFETY")]])])⟩
    (.obj [("candidates", .arr [.obj [("finishReason", .str "SAFETY")]])])
    rfl (by decide) rfl (by decide) rfl rfl rfl (by simp)
    (fun e h => by simp [List.lookup] at h)
    (Or.inr (Or.inr ⟨.obj [("finishReason", .str "SAFETY")], [], rfl,
      fun content h => by simp [List.lookup] at h⟩))

/-- Claim C7, counterexample. The payload `{candidates: [{content: false}]}` has no `error`
and its `candidates[0].content` is present, with the value `false`; the relay answers with
status 500 and the format error, not with status 200 and the payload. -/
theorem falsy_content_is_not_forwarded :
    field sampleRuntime (some (.obj [("content", .bool false)])) "content" =
        .ok (some (.bool false)) ∧
      (handler sampleRuntime (some "k")
        (payloadFetch (.obj [("candidates", .arr [.obj [("content", .bool false)]])]))
        sampleRequest).1 =
        ⟨500, .obj [("error", .str "Unexpected response format from Gemini API.")]⟩ ∧
      (handler sampleRuntime (some "k")
        (payloadFetch (.obj [("candidates", .arr [.obj [("content", .bool false)]])]))
        sampleRequest).1.status ≠ 200 ∧
      deliver (handler sampleRuntime (some "k")
        (payloadFetch (.obj [("candidates", .arr [.obj [("content", .bool false)]])]))
        sampleRequest).1 =
        ⟨500, some (.obj [("error", .str "Unexpected response format from Gemini API.")])⟩ := by
  refine ⟨rfl, rfl, ?_, rfl⟩
  decide

/-- Claim C7, amended. For a request that passes validation, an upstream success answer
whose payload `d`, as read by `JSON.parse`, has no `error` and whose `candidates[0].content`
is present and truthy is answered with status 200 and the body `JSON.stringify` writes for
`d`. That body is `d` itself, no field added, removed or changed, when every number in `d`
is finite and not `-0`; an infinite number goes out as `null` and `-0` as `0`. -/
theorem upstream_payload_is_forwarded (rt : Runtime) (key : String)
    (fetch : FetchCall → FetchResult) (reqBody : List (String × JValue)) (m : String)
    (r : ApiRes) (d : JValue) (candidates candidate : JSVal) (content : JValue)
    (hm : reqBody.lookup "model" = some (.str m)) (hv : m ∈ validModels)
    (hp : truthy (reqBody.lookup "prompt") = true) (hk : key ≠ "")
    (hf : fetch (upstreamCall m key (reqBody.lookup "prompt")) = .resolved r)
    (hok : r.ok = true) (hd : r.json = .ok d)
    (he : field rt (some d) "error" = .ok none)
    (hc : field rt (some d) "candidates" = .ok candidates)
    (h0 : first rt candidates = .ok candidate)
    (hcontent : field rt candidate "content" = .ok (some content))
    (ht : truthy (some content) = true) :
    deliver (handler rt (some key) fetch reqBody).1 = ⟨200, some (jsonWire d)⟩ ∧
      (plain d = true → deliver (handler rt (some key) fetch reqBody).1 = ⟨200, some d⟩) := by
  have hcand : truthy candidate = true := by
    cases candidate with
    | none => simp at hcontent
    | some v => cases v <;> first | rfl | simp at hcontent
  have hcands : truthy candidates = true := by
    cases candidates with
    | none => simp at h0
    | some v =>
      cases v with
      | null => simp at h0
      | bool b => simp at h0; subst h0; simp at hcand
      | num n => simp at h0; subst h0; simp at hcand
      | str s =>
        by_cases hs : s = ""
        · subst hs; simp at h0; subst h0; simp at hcand
        · simp [hs]
      | arr xs => rfl
      | obj kvs => rfl
  have hsent : (handler rt (some key) fetch reqBody).1 = ⟨200, d⟩ := by
    rw [handler_of_valid rt key fetch reqBody m hm hv hp hk, hf]
    simp only [relayTry, FetchResult.await, hok, hd, he, hc, h0, hcontent, hcand, hcands, ht,
      bind, Except.bind, pure, Except.pure]
    simp
  have hbl : bodiless 200 = false := by decide
  have hwire : deliver (handler rt (some key) fetch reqBody).1 = ⟨200, some (jsonWire d)⟩ := by
    rw [hsent]
    simp [deliver, hbl]
  refine ⟨hwire, fun hplain => ?_⟩
  rw [hwire, jsonWire_plain d hplain]

theorem upstream_payload_is_forwarded_witness :
    deliver (handler sampleRuntime (some "k")
        (payloadFetch (.obj [("candidates", .arr [.obj [("content", .obj [])]])]))
        sampleRequest).1 =
        ⟨200, some (jsonWire (.obj [("candidates", .arr [.obj [("content", .obj [])]])]))⟩ ∧
      (plain (.obj [("candidates", .arr [.obj [("content", .obj [])]])]) = true →
        deliver (handler sampleRuntime (some "k")
          (payloadFetch (.obj [("candidates", .arr [.obj [("content", .obj [])]])]))
          sampleRequest).1 =
        ⟨200, some (.obj [("candidates", .arr [.obj [("content", .obj [])]])])⟩) :=
  upstream_payload_is_forwarded sampleRuntime "k"
    (payloadFetch (.obj [("candidates", .arr [.obj [("content", .obj [])]])]))
    sampleRequest "gemini-1.5-pro"
    ⟨200, .ok "", .ok (.obj [("candidates", .arr [.obj [("content", .obj [])]])])⟩
    (.obj [("candidates", .arr [.obj [("content", .obj [])]])])
    (some (.arr [.obj [("content", .obj [])]])) (some (.obj [("content", .obj [])])) (.obj [])
    rfl (by decide) rfl (by decide) rfl rfl rfl rfl rfl rfl rfl rfl

/-- Claim C8, counterexample. When `fetch` throws, the body of the answer has a third
property `stack` next to `error` and `details`. -/
theorem network_error_body_has_stack :
    (handler sampleRuntime (some "k") downFetch sampleRequest).1 =
        ⟨500, .obj [("error", .str "Error connecting to Gemini API."),
          ("details", .str "fetch failed"), ("stack", .str "TypeError: fetch failed")]⟩ ∧
      (handler sampleRuntime (some "k") downFetch sampleRequest).1 ≠
        ⟨500, .obj [("error", .str "Error connecting to Gemini API."),
          ("details", .str "fetch failed")]⟩ := by
  refine ⟨rfl, ?_⟩
  intro h
  have hb := congrArg Res.body h
  revert hb
  change JValue.obj [("error", .str "Error connecting to Gemini API."),
      ("details", .str "fetch failed"), ("stack", .str "TypeError: fetch failed")] ≠
    JValue.obj [("error", .str "Error connecting to Gemini API."),
      ("details", .str "fetch failed")]
  simp

/-- Claim C8, amended. For a request that passes validation, when the `fetch` call throws
an error with message `m` and stack `s`, the relay answers with status 500 and the body
`{error: "Error connecting to Gemini API.", details: m, stack: s}`. -/
theorem network_error_is_500 (rt : Runtime) (key : String)
    (fetch : FetchCall → FetchResult) (reqBody : List (String × JValue)) (m : String)
    (err : JSError)
    (hm : reqBody.lookup "model" = some (.str m)) (hv : m ∈ validModels)
    (hp : truthy (reqBody.lookup "prompt") = true) (hk : key ≠ "")
    (hf : fetch (upstreamCall m key (reqBody.lookup "prompt")) = .rejected err) :
    (handler rt (some key) fetch reqBody).1 =
        ⟨500, .obj [("error", .str "Error connecting to Gemini API."),
          ("details", .str err.message), ("stack", .str err.stack)]⟩ ∧
      deliver (handler rt (some key) fetch reqBody).1 =
        ⟨500, some (.obj [("error", .str "Error connecting to Gemini API."),
          ("details", .str err.message), ("stack", .str err.stack)])⟩ := by
  have hsent : (handler rt (some key) fetch reqBody).1 =
      ⟨500, .obj [("error", .str "Error connecting to Gemini API."),
        ("details", .str err.message), ("stack", .str err.stack)]⟩ := by
    rw [handler_of_valid rt key fetch reqBody m hm hv hp hk, hf]
    simp [relayTry, FetchResult.await, relayCatch, bind, Except.bind]
  refine ⟨hsent, ?_⟩
  rw [hsent]
  rfl

theorem network_error_is_500_witness :
    (handler sampleRuntime (some "k") (fun _ => .rejected ⟨"ECONNRESET", "at fetch"⟩)
        sampleRequest).1 =
        ⟨500, .obj [("error", .str "Error connecting to Gemini API."),
          ("details", .str "ECONNRESET"), ("stack", .str "at fetch")]⟩ ∧
      deliver (handler sampleRuntime (some "k")
        (fun _ => .rejected ⟨"ECONNRESET", "at fetch"⟩) sampleRequest).1 =
        ⟨500, some (.obj [("error", .str "Error connecting to Gemini API."),
          ("details", .str "ECONNRESET"), ("stack", .str "at fetch")])⟩ :=
  network_error_is_500 sampleRuntime "k" (fun _ => .rejected ⟨"ECONNRESET", "at fetch"⟩)
    sampleRequest "gemini-1.5-pro" ⟨"ECONNRESET", "at fetch"⟩
    rfl (by decide) rfl (by decide) rfl

/-! ## The chat client -/

/-- Claim C9. For a non-empty string `t` and a request that passes validation, when the
upstream answers with success and the payload `{candidates: [{content: {parts: [{text: t}]}}]}`
the relay answers with status 200 and that payload, which goes out unchanged, and
`getGeminiResponse`, receiving the status and JSON body of that answer, returns `t`. -/
theorem text_reaches_the_client (rt : Runtime) (key : String)
    (fetch : FetchCall → FetchResult) (reqBody : List (String × JValue)) (m : String)
    (r : ApiRes) (t : String)
    (clientFetch : FetchCall → FetchResult) (input : String) (got : ApiRes)
    (hm : reqBody.lookup "model" = some (.str m)) (hv : m ∈ validModels)
    (hp : truthy (reqBody.lookup "prompt") = true) (hk : key ≠ "")
    (hf : fetch (upstreamCall m key (reqBody.lookup "prompt")) = .resolved r)
    (hok : r.ok = true) (hd : r.json = .ok (textPayload (.str t))) (ht : t ≠ "")
    (hgot : clientFetch (chatCall input) = .resolved got)
    (hstatus : got.status = (handler rt (some key) fetch reqBody).1.status)
    (hjson : got.json = .ok (handler rt (some key) fetch reqBody).1.body) :
    (handler rt (some key) fetch reqBody).1 = ⟨200, textPayload (.str t)⟩ ∧
      getGeminiResponse rt clientFetch input = .ok (some (.str t)) ∧
      deliver (handler rt (some key) fetch reqBody).1 =
        ⟨200, some (textPayload (.str t))⟩ := by
  have hsent : (handler rt (some key) fetch reqBody).1 = ⟨200, textPayload (.str t)⟩ := by
    rw [handler_of_valid rt key fetch reqBody m hm hv hp hk, hf]
    simp [relayTry, FetchResult.await, hok, hd, textPayload, List.lookup, bind, Except.bind,
      pure, Except.pure]
  refine ⟨hsent, ?_, by rw [hsent]; rfl⟩
  rw [hsent] at hstatus hjson
  have hgok : got.ok = true := by simp [ApiRes.ok, hstatus]
  simp [getGeminiResponse, chatTry, candidateText, hgot, FetchResult.await, hgok, hjson,
    textPayload, List.lookup, ht, bind, Except.bind, pure, Except.pure]

theorem text_reaches_the_client_witness :
    (handler sampleRuntime (some "k") (payloadFetch (textPayload (.str "Hello")))
        sampleRequest).1 = ⟨200, textPayload (.str "Hello")⟩ ∧
      getGeminiResponse sampleRuntime (payloadFetch (textPayload (.str "Hello"))) "Hi" =
        .ok (some (.str "Hello")) ∧
      deliver (handler sampleRuntime (some "k") (payloadFetch (textPayload (.str "Hello")))
        sampleRequest).1 = ⟨200, some (textPayload (.str "Hello"))⟩ :=
  text_reaches_the_client sampleRuntime "k" (payloadFetch (textPayload (.str "Hello")))
    sampleRequest "gemini-1.5-pro" ⟨200, .ok "", .ok (textPayload (.str "Hello"))⟩ "Hello"
    (payloadFetch (textPayload (.str "Hello"))) "Hi"
    ⟨200, .ok "", .ok (textPayload (.str "Hello"))⟩
    rfl (by decide) rfl (by decide) rfl rfl rfl (by decide) rfl rfl rfl

/-- Claim C10, counterexample. On a success answer whose payload carries the number 5 as
`candidates[0].content.parts[0].text`, `getGeminiResponse` returns that number, which is
not a string. -/
theorem number_text_is_returned_as_number :
    getGeminiResponse sampleRuntime (payloadFetch (textPayload (JValue.ofNat 5))) "Hi" =
        .ok (some (JValue.ofNat 5)) ∧
      ¬ ∃ s : String,
        getGeminiResponse sampleRuntime (payloadFetch (textPayload (JValue.ofNat 5))) "Hi" =
          .ok (some (.str s)) := by
  have h : getGeminiResponse sampleRuntime (payloadFetch (textPayload (JValue.ofNat 5))) "Hi" =
      .ok (some (JValue.ofNat 5)) := rfl
  refine ⟨h, ?_⟩
  rintro ⟨s, hs⟩
  rw [h] at hs
  simp [JValue.ofNat] at hs

/-- The `try` block of `getGeminiResponse` throws, or yields a string, or yields the truthy
text of the payload of a success answer. -/
theorem chatTry_cases (rt : Runtime) (fr : FetchResult) :
    (∃ e, chatTry rt fr = .error e) ∨ (∃ s : String, chatTry rt fr = .ok (some (.str s))) ∨
      ∃ (r : ApiRes) (d v : JValue), fr = .resolved r ∧ r.ok = true ∧ r.json = .ok d ∧
        candidateText rt d = .ok (some v) ∧ truthy (some v) = true ∧
        chatTry rt fr = .ok (some v) := by
  cases fr with
  | rejected err =>
    exact Or.inl ⟨err, by simp [chatTry, FetchResult.await, bind, Except.bind]⟩
  | resolved r =>
    cases hok : r.ok with
    | false =>
      cases htext : r.text with
      | error e =>
        exact Or.inl ⟨e, by
          simp [chatTry, FetchResult.await, hok, htext, bind, Except.bind, pure, Except.pure]⟩
      | ok errorText =>
        exact Or.inr (Or.inl ⟨errorReply rt r.status errorText, by
          simp [chatTry, FetchResult.await, hok, htext, bind, Except.bind, pure, Except.pure]⟩)
    | true =>
      cases hjson : r.json with
      | error e =>
        exact Or.inl ⟨e, by
          simp [chatTry, FetchResult.await, hok, hjson, bind, Except.bind, pure, Except.pure]⟩
      | ok d =>
        cases herr : field rt (some d) "error" with
        | error e =>
          exact Or.inl ⟨e, by
            simp [chatTry, FetchResult.await, hok, hjson, herr, bind, Except.bind, pure,
              Except.pure]⟩
        | ok error =>
          cases het : truthy error with
          | true =>
            cases hmsg : field rt error "message" with
            | error e =>
              exact Or.inl ⟨e, by
                simp [chatTry, FetchResult.await, hok, hjson, herr, het, hmsg, bind,
                  Except.bind, pure, Except.pure]⟩
            | ok message =>
              cases hshown : toStr rt (orElse message error) with
              | error e =>
                exact Or.inl ⟨e, by
                  simp [chatTry, FetchResult.await, hok, hjson, herr, het, hmsg, hshown, bind,
                    Except.bind, pure, Except.pure]⟩
              | ok shown =>
                exact Or.inr (Or.inl ⟨"Error: " ++ shown, by
                  simp [chatTry, FetchResult.await, hok, hjson, herr, het, hmsg, hshown, bind,
                    Except.bind, pure, Except.pure]⟩)
          | false =>
            cases hcand : candidateText rt d with
            | error e =>
              exact Or.inl ⟨e, by
                simp [chatTry, FetchResult.await, hok, hjson, herr, het, hcand, bind,
                  Except.bind, pure, Except.pure]⟩
            | ok text =>
              cases htt : truthy text with
              | false =>
                exact Or.inr (Or.inl
                  ⟨"Sorry, I couldn\x27t get a response from the AI. Please try again later.", by
                    simp [chatTry, FetchResult.await, hok, hjson, herr, het, hcand, htt, bind,
                      Except.bind, pure, Except.pure]⟩)
              | true =>
                cases text with
                | none => simp at htt
                | some v =>
                  exact Or.inr (Or.inr ⟨r, d, v, rfl, hok, hjson, hcand, htt, by
                    simp [chatTry, FetchResult.await, hok, hjson, herr, het, hcand, htt, bind,
                      Except.bind, pure, Except.pure]⟩)

/-- Claim C10, amended. For every input and every outcome of the call to the relay,
`getGeminiResponse` returns and does not throw; the value returned is a string, except on
a success answer whose payload has a truthy `candidates[0].content.parts[0].text`, where
it is that value, whatever its type. -/
theorem getGeminiResponse_returns (rt : Runtime) (fetch : FetchCall → FetchResult)
    (input : String) :
    ∃ v : JValue, getGeminiResponse rt fetch input = .ok (some v) ∧
      ((∃ s : String, v = .str s) ∨
        ∃ (r : ApiRes) (d : JValue), fetch (chatCall input) = .resolved r ∧ r.ok = true ∧
          r.json = .ok d ∧ candidateText rt d = .ok (some v) ∧ truthy (some v) = true) := by
  unfold getGeminiResponse
  rcases chatTry_cases rt (fetch (chatCall input)) with
    ⟨e, h⟩ | ⟨s, h⟩ | ⟨r, d, v, hfr, hok, hjson, hcand, htt, h⟩
  · rw [h]
    exact ⟨_, rfl, Or.inl ⟨_, rfl⟩⟩
  · rw [h]
    exact ⟨_, rfl, Or.inl ⟨_, rfl⟩⟩
  · rw [h]
    exact ⟨v, rfl, Or.inr ⟨r, d, hfr, hok, hjson, hcand, htt⟩⟩

end Agent
